import Mathlib

/-!
# Verification of the Pipedrive person-sync core (`src/index.ts`)

A shallow embedding of the mapping-driven upsert workflow: the field
mapper (the `reduce` building the person payload), the remote lookup
(`findPersonByName`), the upsert executor (`createOrUpdatePerson`) and
the orchestrator (`syncPdPerson`).  JavaScript values are embedded as a
JSON-like inductive type; `undefined` is `Option.none` while JSON `null`
is `some .vNull`, mirroring the source's `value !== undefined && value
!== null` distinction.  Network effects are made explicit: the remote
system is a pair of response functions in `Env`, and every function
returns, next to its result, the list of HTTP requests it issued, so
that "before any network call" claims become statements about that list.
-/

namespace PdSync

/-- A JavaScript/JSON value as handled by the sync code. -/
inductive Value where
  | vNull : Value
  | vStr : String → Value
  | vNum : Int → Value
  | vBool : Bool → Value
  | vObj : List (String × Value) → Value
  | vArr : List Value → Value
deriving Repr

/-- A mapping-table entry, `interface Mapping` from the source:
`{ pipedriveKey: string; inputKey: string }`. -/
structure Mapping where
  pipedriveKey : String
  inputKey : String
deriving Repr

/-- Modelled from the spec: the `PipedrivePerson` remote-record type lives in
`src/types/pipedrive`, which is absent from `src/`; per the spec a remote
record contains "at minimum an identifier and the synced fields".  Only the
identifier is inspected by the core (`existingPerson?.id`). -/
structure PipedrivePerson where
  id : Int
  fields : List (String × Value)
deriving Repr

/-- First binding of a key in a JavaScript object (object keys are unique,
so first and only). -/
def lookupField (k : String) : List (String × Value) → Option Value
  | [] => none
  | (k', v) :: rest => if k' = k then some v else lookupField k rest

/-- Walk a split dotted path through nested objects.  `none` is JavaScript
`undefined` (missing key, or traversal into a non-object). -/
def getPath (path : List String) (v : Value) : Option Value :=
  match path with
  | [] => some v
  | k :: ks =>
    match v with
    | .vObj fs =>
      match lookupField k fs with
      | some v' => getPath ks v'
      | none => none
    | _ => none

/-- Split a dotted path into its segments, character by character. -/
def splitPathAux : List Char → List Char → List String
  | [], cur => [String.mk cur.reverse]
  | c :: rest, cur =>
    if c = '.' then String.mk cur.reverse :: splitPathAux rest []
    else splitPathAux rest (c :: cur)

/-- The segments of a dotted path, e.g. `contact.email` into its two keys. -/
def splitPath (key : String) : List String := splitPathAux key.data []

/-- Modelled from the spec: lodash's `get(inputData, inputKey)` is an external
dependency; the spec's design notes fix its behavior here to "an explicit
path-resolution function returning an optional value" over "dot-separated
identifiers". -/
def get (input : Value) (key : String) : Option Value :=
  getPath (splitPath key) input

/-- JavaScript truthiness of an environment-variable string
(`string | undefined`): `undefined` and `""` are falsy. -/
def strFalsy : Option String → Bool
  | none => true
  | some s => s = ""

/-- JavaScript string interpolation of a `string | undefined` variable:
`undefined` prints as `"undefined"`. -/
def jsShow : Option String → String
  | none => "undefined"
  | some s => s

/-- JavaScript truthiness of the optional numeric `personId` argument:
`undefined` and `0` are falsy (`personId ? "put" : "post"`). -/
def idTruthy : Option Int → Bool
  | none => false
  | some n => n != 0

/-- Fields `error.response?.data?.error` and `error.message` of a caught
`AxiosError`. -/
structure AxiosErr where
  responseError : Option String
  message : String
deriving Repr

/-- The fallback chain of the `AxiosError` branch of `formatError`:
`error.response?.data?.error || error.message || "Unknown API error"`
(JavaScript `||`, so the empty string also falls through). -/
def axiosErrMsg (e : AxiosErr) : String :=
  match e.responseError with
  | some s =>
    if s ≠ "" then s
    else if e.message ≠ "" then e.message else "Unknown API error"
  | none => if e.message ≠ "" then e.message else "Unknown API error"

/-- A caught error as discriminated by `error instanceof AxiosError`. -/
inductive CaughtError where
  | axios : AxiosErr → CaughtError
  | generic : String → CaughtError

/-- Source `formatError(context, error)`: `"<context>: <message>"`, with the
axios fallback chain on one branch and `error.message || "Unknown error"`
on the other. -/
def formatError (context : String) : CaughtError → String
  | .axios e => context ++ ": " ++ axiosErrMsg e
  | .generic msg => context ++ ": " ++ (if msg ≠ "" then msg else "Unknown error")

/-- An HTTP request issued through axios: method, URL, query params
(an `undefined` param value is kept as `none`) and JSON body. -/
structure HttpRequest where
  method : String
  url : String
  params : List (String × Option String)
  body : List (String × Value)
deriving Repr

/-- The process environment and the remote system's behavior.  The two
transport functions model the typed axios calls: the search call is read
as its `data.data.items[*].item` list, the upsert call as its `data.data`
record; a `.error` models any transport or API failure (the caught
`AxiosError`). -/
structure Env where
  apiKey : Option String
  companyDomain : Option String
  baseUrlEnv : Option String
  searchTransport : HttpRequest → Except AxiosErr (List PipedrivePerson)
  upsertTransport : HttpRequest → Except AxiosErr PipedrivePerson

/-- Source `BASE_URL = process.env.BASE_URL || "https://" + COMPANY_DOMAIN +
".pipedrive.com/v1"` (with template-literal interpolation). -/
def BASE_URL (env : Env) : String :=
  if strFalsy env.baseUrlEnv then
    "https://" ++ jsShow env.companyDomain ++ ".pipedrive.com/v1"
  else jsShow env.baseUrlEnv

/-- The GET request issued by `findPersonByName`. -/
def searchReq (env : Env) (name : String) : HttpRequest where
  method := "get"
  url := BASE_URL env ++ "/persons/search"
  params := [("term", some name), ("fields", some "name"),
             ("exact_match", some "true"), ("api_token", env.apiKey)]
  body := []

/-- Source `findPersonByName(name)`: guard on the env vars, issue the search and
return the first item (`data.data?.items[0]?.item ?? null`), or a wrapped
error on failure.  The second component lists the requests issued. -/
def findPersonByName (env : Env) (name : String) :
    Except String (Option PipedrivePerson) × List HttpRequest :=
  if strFalsy env.apiKey || strFalsy env.companyDomain then
    (.error "Missing PIPEDRIVE_API_KEY or PIPEDRIVE_COMPANY_DOMAIN in .env file", [])
  else
    match env.searchTransport (searchReq env name) with
    | .ok items => (.ok items.head?, [searchReq env name])
    | .error e =>
      (.error (formatError "Failed to search for person" (.axios e)), [searchReq env name])

/-- The request issued by `createOrUpdatePerson`:
`method = personId ? "put" : "post"`,
`url = personId ? BASE_URL + "/persons/" + personId : BASE_URL + "/persons"`. -/
def upsertReq (env : Env) (personData : List (String × Value)) (personId : Option Int) :
    HttpRequest :=
  if idTruthy personId then
    { method := "put"
      url := BASE_URL env ++ "/persons/" ++ toString (personId.getD 0)
      params := [("api_token", env.apiKey)]
      body := personData }
  else
    { method := "post"
      url := BASE_URL env ++ "/persons"
      params := [("api_token", env.apiKey)]
      body := personData }

/-- Source `createOrUpdatePerson(personData, personId?)`: issue the upsert and
return the resulting record, or a wrapped error naming
`"Failed to ${personId ? "update" : "create"} person"`. -/
def createOrUpdatePerson (env : Env) (personData : List (String × Value))
    (personId : Option Int) : Except String PipedrivePerson × List HttpRequest :=
  match env.upsertTransport (upsertReq env personData personId) with
  | .ok p => (.ok p, [upsertReq env personData personId])
  | .error e =>
    (.error (formatError
        ("Failed to " ++ (if idTruthy personId then "update" else "create") ++ " person")
        (.axios e)),
     [upsertReq env personData personId])

/-- The special-field shaping applied inside the payload `reduce`:
`email`/`phone` values are wrapped into
`[{ value, primary: true, label }]` with label `work`/`home`. -/
def shape (key : String) (v : Value) : Value :=
  if key = "email" ∨ key = "phone" then
    .vArr [.vObj [("value", v), ("primary", .vBool true),
                  ("label", .vStr (if key = "email" then "work" else "home"))]]
  else v

/-- JavaScript object assignment `acc[k] = v`: overwrite the existing
binding in place, else append. -/
def setKey (acc : List (String × Value)) (k : String) (v : Value) :
    List (String × Value) :=
  match acc with
  | [] => [(k, v)]
  | (k', v') :: rest => if k' = k then (k, v) :: rest else (k', v') :: setKey rest k v

/-- One step of the payload `reduce`: resolve `inputKey`; skip when the
value is `undefined` or `null`, otherwise assign the (shaped) value. -/
def applyEntry (input : Value) (acc : List (String × Value)) (m : Mapping) :
    List (String × Value) :=
  match get input m.inputKey with
  | none => acc
  | some .vNull => acc
  | some v => setKey acc m.pipedriveKey (shape m.pipedriveKey v)

/-- The payload `reduce` started from an arbitrary accumulator. -/
def buildFrom (input : Value) (acc : List (String × Value)) (mappings : List Mapping) :
    List (String × Value) :=
  mappings.foldl (applyEntry input) acc

/-- The `mappings.reduce(..., {})` of `syncPdPerson` building `personData`. -/
def buildPayload (input : Value) (mappings : List Mapping) : List (String × Value) :=
  buildFrom input [] mappings

/-- The pipeline after identity validation: build the payload, look up the
person by the resolved name, then create or update passing
`existingPerson?.id`. -/
def lookupAndUpsert (env : Env) (input : Value) (mappings : List Mapping) (name : String) :
    Except String PipedrivePerson × List HttpRequest :=
  match findPersonByName env name with
  | (.error e, calls) => (.error e, calls)
  | (.ok existingPerson, calls) =>
    match createOrUpdatePerson env (buildPayload input mappings)
        (existingPerson.map (·.id)) with
    | (r, calls') => (r, calls ++ calls')

/-- The body of `syncPdPerson`'s `try` block: validate that a `name`
mapping exists, validate the resolved identifying value
(`!nameValue || typeof nameValue !== "string"`), then run the pipeline. -/
def syncInner (env : Env) (input : Value) (mappings : List Mapping) :
    Except String PipedrivePerson × List HttpRequest :=
  match mappings.find? (fun m => m.pipedriveKey == "name") with
  | none => (.error "No mapping found for 'name' in mappings.json", [])
  | some nameMapping =>
    match get input nameMapping.inputKey with
    | some (.vStr s) =>
      if s = "" then
        (.error ("Invalid or missing value for inputKey '" ++ nameMapping.inputKey
            ++ "' in inputData.json"), [])
      else lookupAndUpsert env input mappings s
    | _ =>
      (.error ("Invalid or missing value for inputKey '" ++ nameMapping.inputKey
          ++ "' in inputData.json"), [])

/-- The orchestrator's observable outcome: the settled promise and the
HTTP requests issued along the way. -/
structure SyncResult where
  result : Except String PipedrivePerson
  calls : List HttpRequest

/-- Source `syncPdPerson()`: run the pipeline and wrap any failure with the
`"Error in syncPdPerson"` context (the inner throws are plain `Error`s,
so the generic branch of `formatError` applies). -/
def syncPdPerson (env : Env) (input : Value) (mappings : List Mapping) : SyncResult :=
  match syncInner env input mappings with
  | (.ok p, calls) => { result := .ok p, calls := calls }
  | (.error msg, calls) =>
    { result := .error (formatError "Error in syncPdPerson" (.generic msg))
      calls := calls }

/-! ## Concrete fixtures for witnesses and counterexamples -/

/-- A well-configured environment whose search returns the given items and
whose upsert succeeds, echoing the request body as the record's fields. -/
def itemsEnv (items : List PipedrivePerson) : Env where
  apiKey := some "K"
  companyDomain := some "acme"
  baseUrlEnv := none
  searchTransport := fun _ => .ok items
  upsertTransport := fun r => .ok ⟨99, r.body⟩

/-- A well-configured environment whose search returns the given items and
whose upsert always fails with transport message `boom`. -/
def failUpsertEnv (items : List PipedrivePerson) : Env where
  apiKey := some "K"
  companyDomain := some "acme"
  baseUrlEnv := none
  searchTransport := fun _ => .ok items
  upsertTransport := fun _ => .error ⟨none, "boom"⟩

/-- The spec's scenario input:
`{fullName: "Jane Doe", contact: {email: "jane@x.com"}}`. -/
def janeInput : Value :=
  .vObj [("fullName", .vStr "Jane Doe"),
         ("contact", .vObj [("email", .vStr "jane@x.com")])]

/-- The spec's scenario mapping table. -/
def janeMaps : List Mapping := [⟨"name", "fullName"⟩, ⟨"email", "contact.email"⟩]

/-- An input whose identifying value resolves to the empty string. -/
def emptyNameInput : Value := .vObj [("fullName", .vStr "")]

/-- An input whose identifying value resolves to a number, not a string. -/
def numNameInput : Value := .vObj [("fullName", .vNum 5)]

/-- The scenario input extended with a second email source field. -/
def dupEmailInput : Value :=
  .vObj [("fullName", .vStr "Jane Doe"),
         ("contact", .vObj [("email", .vStr "jane@x.com")]),
         ("altEmail", .vStr "second@x.com")]

/-- An input whose nested identifying value resolves to the empty string. -/
def emptyNestedNameInput : Value := .vObj [("person", .vObj [("n", .vStr "")])]

/-- A mapping table resolving the name through a nested path. -/
def nestedNameMaps : List Mapping := [⟨"name", "person.n"⟩]

/-! ## Supporting lemmas -/

theorem lookupField_setKey_self (acc : List (String × Value)) (k : String) (v : Value) :
    lookupField k (setKey acc k v) = some v := by
  induction acc with
  | nil => simp [setKey, lookupField]
  | cons hd tl ih =>
    obtain ⟨k', v'⟩ := hd
    by_cases h : k' = k <;> simp [setKey, lookupField, h, ih]

theorem lookupField_setKey_ne (acc : List (String × Value)) (k k' : String) (v : Value)
    (h : k' ≠ k) : lookupField k' (setKey acc k v) = lookupField k' acc := by
  induction acc with
  | nil => simp [setKey, lookupField, Ne.symm h]
  | cons hd tl ih =>
    obtain ⟨k₀, v₀⟩ := hd
    by_cases h₀ : k₀ = k
    · subst h₀; simp [setKey, lookupField, Ne.symm h]
    · simp [setKey, lookupField, h₀, ih]

theorem applyEntry_skip (input : Value) (acc : List (String × Value)) (m : Mapping)
    (h : get input m.inputKey = none ∨ get input m.inputKey = some .vNull) :
    applyEntry input acc m = acc := by
  rcases h with h | h <;> simp [applyEntry, h]

theorem applyEntry_assign (input : Value) (acc : List (String × Value)) (m : Mapping)
    (v : Value) (h : get input m.inputKey = some v) (hv : v ≠ .vNull) :
    applyEntry input acc m = setKey acc m.pipedriveKey (shape m.pipedriveKey v) := by
  unfold applyEntry
  rw [h]
  cases v <;> first | rfl | exact absurd rfl hv

theorem lookupField_applyEntry_ne (input : Value) (acc : List (String × Value))
    (m : Mapping) (k : String) (hk : m.pipedriveKey ≠ k) :
    lookupField k (applyEntry input acc m) = lookupField k acc := by
  unfold applyEntry
  cases hg : get input m.inputKey with
  | none => rfl
  | some v =>
    cases v <;>
      simp [lookupField_setKey_ne _ _ _ _ fun h => hk h.symm]

theorem buildFrom_cons (input : Value) (acc : List (String × Value)) (m : Mapping)
    (l : List Mapping) :
    buildFrom input acc (m :: l) = buildFrom input (applyEntry input acc m) l := rfl

theorem buildFrom_append (input : Value) (acc : List (String × Value))
    (l₁ l₂ : List Mapping) :
    buildFrom input acc (l₁ ++ l₂) = buildFrom input (buildFrom input acc l₁) l₂ :=
  List.foldl_append _ _ _ _

theorem lookupField_buildFrom_nontarget (input : Value) (k : String) (l : List Mapping)
    (h : ∀ m ∈ l, m.pipedriveKey ≠ k) (acc : List (String × Value)) :
    lookupField k (buildFrom input acc l) = lookupField k acc := by
  induction l generalizing acc with
  | nil => rfl
  | cons m l ih =>
    rw [buildFrom_cons, ih (fun m' hm' => h m' (List.mem_cons_of_mem _ hm'))]
    exact lookupField_applyEntry_ne _ _ _ _ (h m (List.mem_cons_self _ _))

theorem append_ne_empty_left (s t : String) (hs : s ≠ "") : s ++ t ≠ "" := by
  intro h
  have hl := congrArg String.length h
  rw [String.length_append] at hl
  have h0 : s.length = 0 ∧ t.length = 0 := by simpa using hl
  exact hs (String.ext (List.length_eq_zero.mp h0.1))

theorem context_concat_ne_empty (c m : String) : c ++ ": " ++ m ≠ "" := by
  intro h
  have hl := congrArg String.length h
  rw [String.length_append, String.length_append] at hl
  have h2 : (": ").length = 2 := rfl
  have h0 : ("" : String).length = 0 := rfl
  rw [h2, h0] at hl
  omega

theorem formatError_ne_empty (c : String) (e : CaughtError) : formatError c e ≠ "" := by
  cases e with
  | axios a => exact context_concat_ne_empty c (axiosErrMsg a)
  | generic m =>
    by_cases hm : m = "" <;> simp [formatError, hm] <;> exact context_concat_ne_empty c _

theorem createOrUpdatePerson_snd (env : Env) (pd : List (String × Value))
    (pid : Option Int) : (createOrUpdatePerson env pd pid).2 = [upsertReq env pd pid] := by
  unfold createOrUpdatePerson
  cases env.upsertTransport (upsertReq env pd pid) <;> rfl

theorem createOrUpdatePerson_fst_ok (env : Env) (pd : List (String × Value))
    (pid : Option Int) (p : PipedrivePerson)
    (h : env.upsertTransport (upsertReq env pd pid) = .ok p) :
    (createOrUpdatePerson env pd pid).1 = .ok p := by
  unfold createOrUpdatePerson
  rw [h]

theorem createOrUpdatePerson_fst_error (env : Env) (pd : List (String × Value))
    (pid : Option Int) (e : AxiosErr)
    (h : env.upsertTransport (upsertReq env pd pid) = .error e) :
    (createOrUpdatePerson env pd pid).1 =
      .error (formatError
        ("Failed to " ++ (if idTruthy pid then "update" else "create") ++ " person")
        (.axios e)) := by
  unfold createOrUpdatePerson
  rw [h]

theorem createOrUpdatePerson_error_ne_empty (env : Env) (pd : List (String × Value))
    (pid : Option Int) (msg : String)
    (h : (createOrUpdatePerson env pd pid).1 = .error msg) : msg ≠ "" := by
  unfold createOrUpdatePerson at h
  cases hu : env.upsertTransport (upsertReq env pd pid) with
  | ok p => rw [hu] at h; exact absurd h (by simp)
  | error e =>
    rw [hu] at h
    cases h
    exact formatError_ne_empty _ _

theorem findPersonByName_ok (env : Env) (name : String) (items : List PipedrivePerson)
    (hkey : strFalsy env.apiKey = false) (hdom : strFalsy env.companyDomain = false)
    (hs : env.searchTransport (searchReq env name) = .ok items) :
    findPersonByName env name = (.ok items.head?, [searchReq env name]) := by
  simp [findPersonByName, hkey, hdom, hs]

theorem findPersonByName_error_ne_empty (env : Env) (name : String) (msg : String)
    (h : (findPersonByName env name).1 = .error msg) : msg ≠ "" := by
  unfold findPersonByName at h
  by_cases hg : (strFalsy env.apiKey || strFalsy env.companyDomain) = true
  · rw [if_pos hg] at h
    cases h
    decide
  · rw [if_neg hg] at h
    cases hu : env.searchTransport (searchReq env name) with
    | ok items => rw [hu] at h; exact absurd h (by simp)
    | error e =>
      rw [hu] at h
      cases h
      exact formatError_ne_empty _ _

theorem lookupAndUpsert_ok (env : Env) (input : Value) (mappings : List Mapping)
    (name : String) (items : List PipedrivePerson)
    (hkey : strFalsy env.apiKey = false) (hdom : strFalsy env.companyDomain = false)
    (hs : env.searchTransport (searchReq env name) = .ok items) :
    lookupAndUpsert env input mappings name =
      ((createOrUpdatePerson env (buildPayload input mappings)
          (items.head?.map (·.id))).1,
       searchReq env name ::
         (createOrUpdatePerson env (buildPayload input mappings)
           (items.head?.map (·.id))).2) := by
  unfold lookupAndUpsert
  rw [findPersonByName_ok env name items hkey hdom hs]
  rcases h : createOrUpdatePerson env (buildPayload input mappings)
    (items.head?.map (·.id)) with ⟨r, calls⟩
  simp [h]

theorem lookupAndUpsert_error_ne_empty (env : Env) (input : Value)
    (mappings : List Mapping) (name : String) (msg : String)
    (h : (lookupAndUpsert env input mappings name).1 = .error msg) : msg ≠ "" := by
  unfold lookupAndUpsert at h
  split at h
  next e calls heq =>
    injection h with h1
    subst h1
    exact findPersonByName_error_ne_empty env name _ (by rw [heq])
  next existingPerson calls heq =>
    split at h
    next r calls' heq' =>
      refine createOrUpdatePerson_error_ne_empty env (buildPayload input mappings)
        (existingPerson.map (·.id)) msg ?_
      rw [heq']
      exact h

theorem syncInner_proceeds (env : Env) (input : Value) (mappings : List Mapping)
    (nameMapping : Mapping) (s : String)
    (hfind : mappings.find? (fun m => m.pipedriveKey == "name") = some nameMapping)
    (hget : get input nameMapping.inputKey = some (.vStr s)) (hs : s ≠ "") :
    syncInner env input mappings = lookupAndUpsert env input mappings s := by
  unfold syncInner
  rw [hfind]
  simp [hget, hs]

theorem invalid_value_msg_ne_empty (k : String) :
    ("Invalid or missing value for inputKey '" ++ k ++ "' in inputData.json") ≠ "" := by
  apply append_ne_empty_left
  apply append_ne_empty_left
  decide

theorem syncInner_error_ne_empty (env : Env) (input : Value) (mappings : List Mapping)
    (msg : String) (h : (syncInner env input mappings).1 = .error msg) : msg ≠ "" := by
  unfold syncInner at h
  split at h
  · injection h with h1
    subst h1
    decide
  next nameMapping heq =>
    split at h
    next s heq' =>
      split at h
      · injection h with h1
        subst h1
        exact invalid_value_msg_ne_empty nameMapping.inputKey
      next hs =>
        exact lookupAndUpsert_error_ne_empty env input mappings s msg h
    next x hx =>
      injection h with h1
      subst h1
      exact invalid_value_msg_ne_empty nameMapping.inputKey

theorem syncPdPerson_eq (env : Env) (input : Value) (mappings : List Mapping) :
    syncPdPerson env input mappings =
      { result :=
          match (syncInner env input mappings).1 with
          | .ok p => .ok p
          | .error msg => .error (formatError "Error in syncPdPerson" (.generic msg))
        calls := (syncInner env input mappings).2 } := by
  rcases h : syncInner env input mappings with ⟨r, calls⟩
  cases r <;> simp [syncPdPerson, h]

theorem lookupField_buildFrom_skip (input : Value) (k : String) (l : List Mapping)
    (h : ∀ m ∈ l, m.pipedriveKey = k →
      get input m.inputKey = none ∨ get input m.inputKey = some .vNull)
    (acc : List (String × Value)) :
    lookupField k (buildFrom input acc l) = lookupField k acc := by
  induction l generalizing acc with
  | nil => rfl
  | cons m l ih =>
    rw [buildFrom_cons, ih (fun m' hm' => h m' (List.mem_cons_of_mem _ hm'))]
    by_cases hk : m.pipedriveKey = k
    · rw [applyEntry_skip input acc m (h m (List.mem_cons_self _ _) hk)]
    · exact lookupField_applyEntry_ne input acc m k hk

theorem formatError_generic_of_ne (c msg : String) (h : msg ≠ "") :
    formatError c (.generic msg) = c ++ ": " ++ msg := by
  simp [formatError, h]

theorem syncInner_invalid (env : Env) (input : Value) (mappings : List Mapping)
    (nameMapping : Mapping)
    (hfind : mappings.find? (fun m => m.pipedriveKey == "name") = some nameMapping)
    (hno : ¬ ∃ s, get input nameMapping.inputKey = some (.vStr s) ∧ s ≠ "") :
    syncInner env input mappings =
      (.error ("Invalid or missing value for inputKey '" ++ nameMapping.inputKey
          ++ "' in inputData.json"), []) := by
  unfold syncInner
  rw [hfind]
  cases hget : get input nameMapping.inputKey with
  | none => simp [hget]
  | some v =>
    cases v with
    | vStr s =>
      have hs : s = "" := by
        by_contra hs
        exact hno ⟨s, hget, hs⟩
      subst hs
      simp [hget]
    | vNull => simp [hget]
    | vNum n => simp [hget]
    | vBool b => simp [hget]
    | vObj fs => simp [hget]
    | vArr xs => simp [hget]

theorem syncPdPerson_wraps (env : Env) (input : Value) (mappings : List Mapping)
    (msg : String) (h : (syncInner env input mappings).1 = .error msg) (hm : msg ≠ "") :
    (syncPdPerson env input mappings).result =
      .error ("Error in syncPdPerson: " ++ msg) := by
  rw [syncPdPerson_eq]
  simp only [h]
  rw [formatError_generic_of_ne _ _ hm]
  rfl

/-! ## Claim theorems -/

/-- C1 counterexample: with a valid configuration, the remote lookup returns
the non-null record `{id: 0}`, yet the upsert issued is a POST to the
collection URL — not a PUT addressed to identifier 0.  The truthiness test
`personId ? "put" : "post"` treats the identifier 0 like an absent one, so
the claim's "for every possible identifier value, including 0" fails. -/
theorem upsert_zero_id_issues_post :
    ((itemsEnv [⟨0, []⟩]).searchTransport
        (searchReq (itemsEnv [⟨0, []⟩]) "Jane Doe") = .ok [⟨0, []⟩]) ∧
    (syncPdPerson (itemsEnv [⟨0, []⟩]) janeInput janeMaps).calls.map (·.method) =
      ["get", "post"] ∧
    (syncPdPerson (itemsEnv [⟨0, []⟩]) janeInput janeMaps).calls.map (·.url) =
      ["https://acme.pipedrive.com/v1/persons/search",
       "https://acme.pipedrive.com/v1/persons"] :=
  ⟨rfl, rfl, rfl⟩

/-- C1 (amended): in a validated run whose search succeeds, the upsert is
invoked with `existingPerson?.id` and issues a PUT addressed to that
identifier whenever the lookup returned a record with a nonzero identifier,
and a POST to the collection URL when the lookup returned null; an existing
identifier equal to 0 falls into the POST path. -/
theorem sync_create_update_paths (env : Env) (input : Value) (mappings : List Mapping)
    (nameMapping : Mapping) (s : String) (items : List PipedrivePerson)
    (hfind : mappings.find? (fun m => m.pipedriveKey == "name") = some nameMapping)
    (hget : get input nameMapping.inputKey = some (.vStr s)) (hs : s ≠ "")
    (hkey : strFalsy env.apiKey = false) (hdom : strFalsy env.companyDomain = false)
    (hsearch : env.searchTransport (searchReq env s) = .ok items) :
    (syncPdPerson env input mappings).calls =
      [searchReq env s,
       upsertReq env (buildPayload input mappings) (items.head?.map (·.id))] ∧
    (∀ p, items.head? = some p → p.id ≠ 0 →
      upsertReq env (buildPayload input mappings) (items.head?.map (·.id)) =
        { method := "put"
          url := BASE_URL env ++ "/persons/" ++ toString p.id
          params := [("api_token", env.apiKey)]
          body := buildPayload input mappings }) ∧
    (items.head? = none →
      upsertReq env (buildPayload input mappings) (items.head?.map (·.id)) =
        { method := "post"
          url := BASE_URL env ++ "/persons"
          params := [("api_token", env.apiKey)]
          body := buildPayload input mappings }) := by
  refine ⟨?_, ?_, ?_⟩
  · rw [syncPdPerson_eq]
    rw [syncInner_proceeds env input mappings nameMapping s hfind hget hs]
    rw [lookupAndUpsert_ok env input mappings s items hkey hdom hsearch]
    rw [createOrUpdatePerson_snd]
  · intro p hp hp0
    rw [hp]
    simp [upsertReq, idTruthy, hp0]
  · intro hnone
    rw [hnone]
    simp [upsertReq, idTruthy]

/-- Witness for C1 (amended): Jane Doe exists remotely with id 42, so the
run issues the search followed by a PUT to `/persons/42`. -/
theorem sync_create_update_paths_witness :
    (syncPdPerson (itemsEnv [⟨42, []⟩]) janeInput janeMaps).calls =
      [searchReq (itemsEnv [⟨42, []⟩]) "Jane Doe",
       upsertReq (itemsEnv [⟨42, []⟩]) (buildPayload janeInput janeMaps)
         ((([⟨42, []⟩] : List PipedrivePerson).head?).map (·.id))] ∧
    upsertReq (itemsEnv [⟨42, []⟩]) (buildPayload janeInput janeMaps)
        ((([⟨42, []⟩] : List PipedrivePerson).head?).map (·.id)) =
      { method := "put"
        url := BASE_URL (itemsEnv [⟨42, []⟩]) ++ "/persons/"
          ++ toString (PipedrivePerson.mk 42 []).id
        params := [("api_token", (itemsEnv [⟨42, []⟩]).apiKey)]
        body := buildPayload janeInput janeMaps } := by
  have h := sync_create_update_paths (itemsEnv [⟨42, []⟩]) janeInput janeMaps
    ⟨"name", "fullName"⟩ "Jane Doe" [⟨42, []⟩] rfl rfl (by decide) rfl rfl rfl
  exact ⟨h.1, h.2.1 ⟨42, []⟩ rfl (by decide)⟩

/-- C2: if no mapping entry has targetField `name`, the orchestrator fails
with the configuration error and issues no network call at all. -/
theorem noNameMapping_fails_before_network (env : Env) (input : Value)
    (mappings : List Mapping)
    (h : mappings.find? (fun m => m.pipedriveKey == "name") = none) :
    (syncPdPerson env input mappings).result =
      .error "Error in syncPdPerson: No mapping found for 'name' in mappings.json" ∧
    (syncPdPerson env input mappings).calls = [] := by
  have hv : syncInner env input mappings =
      (.error "No mapping found for 'name' in mappings.json", []) := by
    unfold syncInner
    rw [h]
  constructor
  · have hw := syncPdPerson_wraps env input mappings
      "No mapping found for 'name' in mappings.json" (by rw [hv]) (by decide)
    rw [hw]
    rfl
  · rw [syncPdPerson_eq, hv]

/-- Witness for C2 at the empty mapping table. -/
theorem noNameMapping_fails_before_network_witness :
    (syncPdPerson (itemsEnv []) janeInput []).result =
      .error "Error in syncPdPerson: No mapping found for 'name' in mappings.json" ∧
    (syncPdPerson (itemsEnv []) janeInput []).calls = [] :=
  noNameMapping_fails_before_network (itemsEnv []) janeInput [] rfl

/-- C3: whatever the surrounding mapping configuration, when the entry with
targetField `email` (resp. `phone`) resolves to a non-null value `v`, the
built payload maps the field to the single-element collection
`[{value: v, primary: true, label: "work"}]` (resp. label `home`). -/
theorem payload_email_phone_shaping (input : Value) (key label p : String)
    (l₁ l₂ : List Mapping) (v : Value)
    (hkl : key = "email" ∧ label = "work" ∨ key = "phone" ∧ label = "home")
    (h₁ : ∀ m ∈ l₁, m.pipedriveKey ≠ key) (h₂ : ∀ m ∈ l₂, m.pipedriveKey ≠ key)
    (hv : get input p = some v) (hvn : v ≠ .vNull) :
    lookupField key (buildPayload input (l₁ ++ ⟨key, p⟩ :: l₂)) =
      some (.vArr [.vObj [("value", v), ("primary", .vBool true),
                          ("label", .vStr label)]]) := by
  unfold buildPayload
  rw [buildFrom_append, buildFrom_cons]
  rw [lookupField_buildFrom_nontarget input key l₂ h₂]
  rw [applyEntry_assign input _ ⟨key, p⟩ v hv hvn]
  rw [lookupField_setKey_self]
  rcases hkl with ⟨hk, hl⟩ | ⟨hk, hl⟩ <;> subst hk <;> subst hl <;> rfl

/-- Witness for C3: the scenario email resolves to `jane@x.com` and is
wrapped with label `work`. -/
theorem payload_email_phone_shaping_witness :
    lookupField "email"
        (buildPayload janeInput
          ([⟨"name", "fullName"⟩] ++ ⟨"email", "contact.email"⟩ :: [])) =
      some (.vArr [.vObj [("value", .vStr "jane@x.com"), ("primary", .vBool true),
                          ("label", .vStr "work")]]) :=
  payload_email_phone_shaping janeInput "email" "work" "contact.email"
    [⟨"name", "fullName"⟩] [] (.vStr "jane@x.com") (Or.inl ⟨rfl, rfl⟩)
    (by intro m hm; simp at hm; subst hm; decide)
    (by intro m hm; simp at hm)
    rfl (fun h => Value.noConfusion h)

/-- C4: a target field all of whose mapping entries resolve to `undefined`
or `null` is omitted from the built payload entirely. -/
theorem payload_omits_null_and_undefined (input : Value) (mappings : List Mapping)
    (k : String)
    (h : ∀ m ∈ mappings, m.pipedriveKey = k →
      get input m.inputKey = none ∨ get input m.inputKey = some .vNull) :
    lookupField k (buildPayload input mappings) = none := by
  unfold buildPayload
  rw [lookupField_buildFrom_skip input k mappings h []]
  rfl

/-- Witness for C4: a `phone` entry whose source field is missing from the
input leaves no `phone` key in the payload. -/
theorem payload_omits_null_and_undefined_witness :
    lookupField "phone" (buildPayload janeInput (janeMaps ++ [⟨"phone", "mobile"⟩])) =
      none :=
  payload_omits_null_and_undefined janeInput (janeMaps ++ [⟨"phone", "mobile"⟩]) "phone"
    (by
      intro m hm hk
      simp [janeMaps] at hm
      rcases hm with h1 | h1 | h1 <;> subst h1 <;>
        first
          | exact absurd hk (by decide)
          | exact Or.inl rfl)

/-- C5 counterexample: the identifying value resolves to the empty string —
which is present and is a string — yet the run fails with the configuration
error before any network call: the check `!nameValue` rejects every falsy
value, so "exactly when absent or not a string" is refuted. -/
theorem identity_validation_empty_string_cx :
    get emptyNameInput "fullName" = some (.vStr "") ∧
    (syncPdPerson (itemsEnv []) emptyNameInput janeMaps).result =
      .error "Error in syncPdPerson: Invalid or missing value for inputKey 'fullName' in inputData.json" ∧
    (syncPdPerson (itemsEnv []) emptyNameInput janeMaps).calls = [] :=
  ⟨rfl, rfl, rfl⟩

/-- C5 (amended): identity-value validation fails with the configuration
error exactly when the resolved value is absent, not a string, or the empty
string; when it resolves to a nonempty string the run proceeds past
validation into the payload/lookup/upsert pipeline. -/
theorem identity_validation_exact (env : Env) (input : Value) (mappings : List Mapping)
    (nameMapping : Mapping)
    (hfind : mappings.find? (fun m => m.pipedriveKey == "name") = some nameMapping) :
    ((¬ ∃ s, get input nameMapping.inputKey = some (.vStr s) ∧ s ≠ "") →
      (syncPdPerson env input mappings).result =
        .error ("Error in syncPdPerson: " ++ ("Invalid or missing value for inputKey '"
          ++ nameMapping.inputKey ++ "' in inputData.json")) ∧
      (syncPdPerson env input mappings).calls = []) ∧
    (∀ s, get input nameMapping.inputKey = some (.vStr s) → s ≠ "" →
      syncInner env input mappings = lookupAndUpsert env input mappings s) := by
  constructor
  · intro hno
    have hv := syncInner_invalid env input mappings nameMapping hfind hno
    constructor
    · exact syncPdPerson_wraps env input mappings _ (by rw [hv])
        (invalid_value_msg_ne_empty nameMapping.inputKey)
    · rw [syncPdPerson_eq, hv]
  · intro s hs hne
    exact syncInner_proceeds env input mappings nameMapping s hfind hs hne

/-- Witness for C5 (amended): a numeric identifying value is rejected with
the configuration error and no network call. -/
theorem identity_validation_exact_witness :
    (syncPdPerson (itemsEnv []) numNameInput janeMaps).result =
      .error ("Error in syncPdPerson: " ++ ("Invalid or missing value for inputKey '"
        ++ "fullName" ++ "' in inputData.json")) ∧
    (syncPdPerson (itemsEnv []) numNameInput janeMaps).calls = [] :=
  (identity_validation_exact (itemsEnv []) numNameInput janeMaps
      ⟨"name", "fullName"⟩ rfl).1
    (by
      rintro ⟨s, hs, hne⟩
      rw [show get numNameInput "fullName" = some (.vNum 5) from rfl] at hs
      injection hs with h1
      exact Value.noConfusion h1)

/-- C6: every failure surfaced by the orchestrator is the step's own error
message wrapped by string concatenation under the orchestration context
prefix, `"Error in syncPdPerson: " ++ inner`, with the inner message
preserved verbatim (inner step names appear inside `inner` through the same
`"<context>: <message>"` scheme at the failing step). -/
theorem sync_errors_wrapped (env : Env) (input : Value) (mappings : List Mapping)
    (msg : String) (h : (syncPdPerson env input mappings).result = .error msg) :
    ∃ inner, inner ≠ "" ∧ (syncInner env input mappings).1 = .error inner ∧
      msg = "Error in syncPdPerson: " ++ inner := by
  cases hi : (syncInner env input mappings).1 with
  | ok p =>
    rw [syncPdPerson_eq] at h
    simp [hi] at h
  | error inner =>
    have hne := syncInner_error_ne_empty env input mappings inner hi
    refine ⟨inner, hne, rfl, ?_⟩
    have hw := syncPdPerson_wraps env input mappings inner hi hne
    rw [hw] at h
    injection h with h1
    exact h1.symm

/-- Witness for C6 on the missing-name-mapping failure. -/
theorem sync_errors_wrapped_witness :
    ∃ inner, inner ≠ "" ∧ (syncInner (itemsEnv []) janeInput []).1 = .error inner ∧
      "Error in syncPdPerson: No mapping found for 'name' in mappings.json" =
        "Error in syncPdPerson: " ++ inner :=
  sync_errors_wrapped (itemsEnv []) janeInput []
    "Error in syncPdPerson: No mapping found for 'name' in mappings.json" rfl

/-- C7: with a successful search response, the lookup yields the first
record of the response's item list, and null exactly when it is empty. -/
theorem findPersonByName_first_or_null (env : Env) (name : String)
    (items : List PipedrivePerson)
    (hkey : strFalsy env.apiKey = false) (hdom : strFalsy env.companyDomain = false)
    (hs : env.searchTransport (searchReq env name) = .ok items) :
    (findPersonByName env name).1 = .ok items.head? ∧
    (items = [] → (findPersonByName env name).1 = .ok none) ∧
    (∀ p rest, items = p :: rest → (findPersonByName env name).1 = .ok (some p)) := by
  have hmain : (findPersonByName env name).1 = .ok items.head? := by
    rw [findPersonByName_ok env name items hkey hdom hs]
  refine ⟨hmain, ?_, ?_⟩
  · intro h
    subst h
    exact hmain
  · intro p rest h
    subst h
    exact hmain

/-- Witness for C7 on a one-element item list. -/
theorem findPersonByName_first_or_null_witness :
    (findPersonByName (itemsEnv [⟨42, []⟩]) "Jane Doe").1 =
      .ok ([(⟨42, []⟩ : PipedrivePerson)].head?) ∧
    (([(⟨42, []⟩ : PipedrivePerson)] : List PipedrivePerson) = [] →
      (findPersonByName (itemsEnv [⟨42, []⟩]) "Jane Doe").1 = .ok none) ∧
    (∀ p rest, ([(⟨42, []⟩ : PipedrivePerson)] : List PipedrivePerson) = p :: rest →
      (findPersonByName (itemsEnv [⟨42, []⟩]) "Jane Doe").1 = .ok (some p)) :=
  findPersonByName_first_or_null (itemsEnv [⟨42, []⟩]) "Jane Doe" [⟨42, []⟩]
    rfl rfl rfl

/-- C8 counterexample: the search finds the existing record `{id: 0}`, the
upsert is therefore invoked with identifier 0 and fails — and the error
message names "create", not "update", because `personId ? "update" :
"create"` treats identifier 0 as absent (consistently with the POST issued). -/
theorem upsert_error_zero_id_says_create :
    ((failUpsertEnv [⟨0, []⟩]).searchTransport
        (searchReq (failUpsertEnv [⟨0, []⟩]) "Jane Doe") = .ok [⟨0, []⟩]) ∧
    (createOrUpdatePerson (failUpsertEnv [⟨0, []⟩])
        (buildPayload janeInput janeMaps) (some 0)).1 =
      .error "Failed to create person: boom" ∧
    (syncPdPerson (failUpsertEnv [⟨0, []⟩]) janeInput janeMaps).result =
      .error "Error in syncPdPerson: Failed to create person: boom" :=
  ⟨rfl, rfl, rfl⟩

/-- C8 (amended): a failed upsert raises
`"Failed to <op> person: <message>"` where `<op>` names the operation
actually issued: "update" when a nonzero identifier was supplied, "create"
when no identifier — or the identifier 0 — was supplied; `<op>` always
agrees with the request method used. -/
theorem upsert_error_names_operation (env : Env) (pd : List (String × Value))
    (pid : Option Int) (e : AxiosErr)
    (h : env.upsertTransport (upsertReq env pd pid) = .error e) :
    (createOrUpdatePerson env pd pid).1 =
      .error ("Failed to " ++ (if idTruthy pid then "update" else "create")
        ++ " person" ++ ": " ++ axiosErrMsg e) ∧
    (∀ n, pid = some n → n ≠ 0 → idTruthy pid = true) ∧
    ((pid = none ∨ pid = some 0) → idTruthy pid = false) ∧
    (upsertReq env pd pid).method = (if idTruthy pid then "put" else "post") := by
  refine ⟨?_, ?_, ?_, ?_⟩
  · rw [createOrUpdatePerson_fst_error env pd pid e h]
    rfl
  · intro n hn hn0
    subst hn
    simp [idTruthy, hn0]
  · rintro (hn | hn) <;> subst hn <;> simp [idTruthy]
  · by_cases ht : idTruthy pid <;> simp [upsertReq, ht]

/-- Witness for C8 (amended) at the nonzero identifier 7. -/
theorem upsert_error_names_operation_witness :
    (createOrUpdatePerson (failUpsertEnv []) [] (some 7)).1 =
      .error ("Failed to " ++ (if idTruthy (some 7) then "update" else "create")
        ++ " person" ++ ": " ++ axiosErrMsg ⟨none, "boom"⟩) ∧
    (∀ n, (some 7 : Option Int) = some n → n ≠ 0 → idTruthy (some 7) = true) ∧
    (((some 7 : Option Int) = none ∨ (some 7 : Option Int) = some 0) →
      idTruthy (some 7) = false) ∧
    (upsertReq (failUpsertEnv []) [] (some 7)).method =
      (if idTruthy (some 7) then "put" else "post") :=
  upsert_error_names_operation (failUpsertEnv []) [] (some 7) ⟨none, "boom"⟩ rfl

/-- C9: when several entries share a targetField, sequence order makes the
later entry win: if the last entry targeting the field resolves to a
non-null value, the payload holds that entry's (shaped) value, regardless
of any earlier entry targeting the same field. -/
theorem payload_duplicate_last_wins (input : Value) (k : String) (e₁ e₂ : Mapping)
    (l₁ l₂ l₃ : List Mapping) (v : Value)
    (h₁ : e₁.pipedriveKey = k) (h₂ : e₂.pipedriveKey = k)
    (h₃ : ∀ m ∈ l₃, m.pipedriveKey ≠ k)
    (hv : get input e₂.inputKey = some v) (hvn : v ≠ .vNull) :
    lookupField k (buildPayload input (l₁ ++ e₁ :: l₂ ++ e₂ :: l₃)) =
      some (shape k v) := by
  unfold buildPayload
  rw [buildFrom_append, buildFrom_append, buildFrom_cons]
  rw [lookupField_buildFrom_nontarget input k l₃ h₃]
  rw [applyEntry_assign input _ e₂ v hv hvn, h₂]
  rw [lookupField_setKey_self]

/-- Witness for C9: two entries target `email`; the later one resolves to
`second@x.com` and its shaped value is what the payload holds. -/
theorem payload_duplicate_last_wins_witness :
    lookupField "email"
        (buildPayload dupEmailInput
          ([⟨"name", "fullName"⟩] ++ ⟨"email", "contact.email"⟩ ::
            [] ++ ⟨"email", "altEmail"⟩ :: [])) =
      some (shape "email" (.vStr "second@x.com")) :=
  payload_duplicate_last_wins dupEmailInput "email"
    ⟨"email", "contact.email"⟩ ⟨"email", "altEmail"⟩
    [⟨"name", "fullName"⟩] [] [] (.vStr "second@x.com")
    rfl rfl (by intro m hm; simp at hm)
    rfl (fun h => Value.noConfusion h)

/-- C10: an identifying value resolving to the empty string — a string,
merely falsy — is rejected with the configuration error before any network
call is made. -/
theorem empty_string_name_rejected (env : Env) (input : Value)
    (mappings : List Mapping) (nameMapping : Mapping)
    (hfind : mappings.find? (fun m => m.pipedriveKey == "name") = some nameMapping)
    (hget : get input nameMapping.inputKey = some (.vStr "")) :
    (syncPdPerson env input mappings).result =
      .error ("Error in syncPdPerson: " ++ ("Invalid or missing value for inputKey '"
        ++ nameMapping.inputKey ++ "' in inputData.json")) ∧
    (syncPdPerson env input mappings).calls = [] := by
  have hv := syncInner_invalid env input mappings nameMapping hfind
    (by
      rintro ⟨s, hs, hne⟩
      rw [hget] at hs
      injection hs with h1
      injection h1 with h2
      exact hne h2.symm)
  constructor
  · exact syncPdPerson_wraps env input mappings _ (by rw [hv])
      (invalid_value_msg_ne_empty nameMapping.inputKey)
  · rw [syncPdPerson_eq, hv]

/-- Witness for C10 on a nested empty-string identifying value. -/
theorem empty_string_name_rejected_witness :
    (syncPdPerson (itemsEnv []) emptyNestedNameInput nestedNameMaps).result =
      .error ("Error in syncPdPerson: " ++ ("Invalid or missing value for inputKey '"
        ++ "person.n" ++ "' in inputData.json")) ∧
    (syncPdPerson (itemsEnv []) emptyNestedNameInput nestedNameMaps).calls = [] :=
  empty_string_name_rejected (itemsEnv []) emptyNestedNameInput nestedNameMaps
    ⟨"name", "person.n"⟩ rfl rfl

end PdSync
